import Mathlib

/-!
Verification development for the pman OpenShift cluster manager
(`pman/openshiftmgr.py`).  The Python dictionaries built by
`OpenShiftManager.schedule` are embedded as Lean records, and the pure
parts of `schedule`, `state`, `get_job_pod_logs` and `remove_job` are
translated as Lean functions.  Calls into the Kubernetes/OpenShift API
client (`create_namespaced_job`, `read_namespaced_job`,
`read_namespaced_pod_log`, `delete_namespaced_job`) are the external
boundary: they are passed in as function arguments where a claim needs
them.
-/

/-- Values stored in the Python dictionaries are either strings or
integers (for example the `NUMBER_OF_WORKERS` env value is an `int`
while `CPU_LIMIT` is a string). -/
inductive PyVal where
  | pstr : String → PyVal
  | pint : Int → PyVal
deriving DecidableEq, Repr

/-- An entry of a container's `env` list: a `name`/`value` pair. -/
structure EnvVar where
  name : String
  value : PyVal
deriving DecidableEq, Repr

/-- An entry of a container's `volumeMounts` list.  The source writes
`readOnly: True` only for secret mounts; an absent key defaults to
false. -/
structure VolumeMount where
  mountPath : String
  name : String
  readOnly : Bool := false
deriving DecidableEq, Repr

/-- The `resources.limits` dictionary: `memory` and `cpu` are always
present; the key `nvidia.com/gpu` is added to the primary container's
limits only when the gpu limit is positive (`none` models the absent
key). -/
structure ResourceLimits where
  memory : String
  cpu : String
  nvidiaGpu : Option Int := none
deriving DecidableEq, Repr

/-- The `resources.requests` dictionary (always the fixed floor
`128Mi` / `250m` in this source). -/
structure ResourceRequests where
  memory : String
  cpu : String
deriving DecidableEq, Repr

/-- A container's `resources` dictionary. -/
structure Resources where
  limits : ResourceLimits
  requests : ResourceRequests
deriving DecidableEq, Repr

/-- One entry of the pod template's `containers` (or `initContainers`)
list. -/
structure Container where
  name : String
  image : String
  command : List String
  env : List EnvVar
  resources : Resources
  volumeMounts : List VolumeMount
deriving DecidableEq, Repr

/-- The backing source of a volume: exactly one of `emptyDir`,
`hostPath` (with its `path`) or `secret` (with its `secretName`). -/
inductive VolumeSource where
  | emptyDir : VolumeSource
  | hostPath : String → VolumeSource
  | secret : String → VolumeSource
deriving DecidableEq, Repr

/-- One entry of the pod template's `volumes` list. -/
structure Volume where
  name : String
  source : VolumeSource
deriving DecidableEq, Repr

/-- The pod template's `spec` dictionary.  `initContainers` is `[]`
when the key is absent (the non-swift branch never sets it), and
`nodeSelector` is `none` when absent (it is only set in the gpu
branch, always to the single pair `accelerator: gpu-node`). -/
structure PodSpec where
  restartPolicy : String
  containers : List Container
  initContainers : List Container := []
  nodeSelector : Option (String × String) := none
  volumes : List Volume := []
deriving DecidableEq, Repr

/-- The job spec's `template`: metadata name plus the pod spec. -/
structure PodTemplate where
  name : String
  spec : PodSpec
deriving DecidableEq, Repr

/-- The `spec` dictionary of the job descriptor. -/
structure JobSpec where
  parallelism : Int
  completions : Int
  activeDeadlineSeconds : Int
  template : PodTemplate
deriving DecidableEq, Repr

/-- The full `d_job` descriptor built by `schedule`. -/
structure JobDescriptor where
  apiVersion : String
  kind : String
  name : String
  spec : JobSpec
deriving DecidableEq, Repr

/-- Python `list(str)` splitting: `pySplitList sep cs` is the list of
separator-free chunks of `cs`, where every occurrence of `sep` ends a
chunk (so consecutive separators yield empty chunks and the result is
never empty). -/
def pySplitList (sep : Char) : List Char → List (List Char)
  | [] => [[]]
  | c :: cs =>
    if c = sep then [] :: pySplitList sep cs
    else
      match pySplitList sep cs with
      | t :: ts => (c :: t) :: ts
      | [] => [[c]]

/-- Python `s.split(sep)` for a single-character separator `sep`, as
used by the source in `command.split(" ")` and `pod_name.split('-')`:
every occurrence of the separator produces a token boundary, so runs
of separators produce empty-string tokens, and `"".split(sep)` is
`[""]`. -/
def pySplit (sep : Char) (s : String) : List String :=
  (pySplitList sep s.toList).map (fun l => String.mk l)

/-- The init-stage container appended under `initContainers` in the
swift branch of `schedule` (lines 110-146 of the source), verbatim. -/
def initStorageContainer (name : String) : Container :=
  { name := "init-storage",
    image := "fnndsc/pman-swift-publisher",
    env := [⟨"SWIFT_KEY", .pstr name⟩],
    command := ["python3", "get_data.py"],
    resources :=
      { limits := { memory := "1024Mi", cpu := "2000m" },
        requests := { memory := "128Mi", cpu := "250m" } },
    volumeMounts :=
      [ { mountPath := "/share", name := "shared-volume" },
        { mountPath := "/etc/swift", name := "swift-credentials", readOnly := true } ] }

/-- The publish container appended to `containers` in the swift branch
of `schedule` (lines 148-195 of the source), verbatim; `project` is
the manager's project namespace. -/
def publishContainer (name project : String) : Container :=
  { name := "publish",
    image := "fnndsc/pman-swift-publisher",
    env :=
      [ ⟨"SWIFT_KEY", .pstr name⟩,
        ⟨"KUBECFG_PATH", .pstr "/tmp/.kube/config"⟩,
        ⟨"OPENSHIFTMGR_PROJECT", .pstr project⟩ ],
    command := ["python3", "watch.py"],
    resources :=
      { limits := { memory := "1024Mi", cpu := "2000m" },
        requests := { memory := "128Mi", cpu := "250m" } },
    volumeMounts :=
      [ { mountPath := "/share", name := "shared-volume" },
        { mountPath := "/etc/swift", name := "swift-credentials", readOnly := true },
        { mountPath := "/tmp/.kube/", name := "kubecfg-volume", readOnly := true } ] }

/-- The pure part of `OpenShiftManager.schedule` (source lines 39-224):
builds the `d_job` descriptor that is then handed to
`create_namespaced_job`.  `storage_type` is the value of
`os.environ.get('STORAGE_TYPE')` at the time of the call (the source
reads the environment inside `schedule`, line 109); `project` is
`self.project`.  The gpu branch mutates `containers[0]` before the
swift branch appends the publish container, exactly as in the source;
`int(gpu_limit)` is modeled by taking `gpu_limit` as an integer. -/
def schedule (storage_type : Option String) (project : String)
    (image command name : String) (number_of_workers : Int)
    (cpu_limit memory_limit : String) (gpu_limit : Int) : JobDescriptor :=
  let primary : Container :=
    { env :=
        [ ⟨"NUMBER_OF_WORKERS", .pint number_of_workers⟩,
          ⟨"CPU_LIMIT", .pstr cpu_limit⟩,
          ⟨"MEMORY_LIMIT", .pstr memory_limit⟩ ],
      name := name,
      image := image,
      command := pySplit ' ' command,
      resources :=
        { limits := { memory := memory_limit, cpu := cpu_limit },
          requests := { memory := "128Mi", cpu := "250m" } },
      volumeMounts := [ { mountPath := "/share", name := "shared-volume" } ] }
  -- `if int(gpu_limit) > 0`: containers[0] is still the only container
  -- here, the publish container is appended later.
  let primary :=
    if 0 < gpu_limit then
      { primary with resources :=
          { primary.resources with limits :=
              { primary.resources.limits with nvidiaGpu := some gpu_limit } } }
    else primary
  let nodeSel : Option (String × String) :=
    if 0 < gpu_limit then some ("accelerator", "gpu-node") else none
  let podSpec : PodSpec :=
    if storage_type = some "swift" then
      { restartPolicy := "Never",
        initContainers := [initStorageContainer name],
        containers := [primary] ++ [publishContainer name project],
        nodeSelector := nodeSel,
        volumes :=
          [ ⟨"shared-volume", .emptyDir⟩,
            ⟨"swift-credentials", .secret "swift-credentials"⟩,
            ⟨"kubecfg-volume", .secret "kubecfg"⟩ ] }
    else
      { restartPolicy := "Never",
        containers := [primary],
        nodeSelector := nodeSel,
        volumes := [ ⟨"shared-volume", .hostPath ("/tmp/share/key-" ++ name)⟩ ] }
  { apiVersion := "batch/v1",
    kind := "Job",
    name := name,
    spec :=
      { parallelism := number_of_workers,
        completions := number_of_workers,
        activeDeadlineSeconds := 3600,
        template := { name := name, spec := podSpec } } }

/-- All container specs of a descriptor in execution order: the init
containers (which the cluster runs to completion before the main
containers start) followed by the `containers` list. -/
def allContainers (j : JobDescriptor) : List Container :=
  j.spec.template.spec.initContainers ++ j.spec.template.spec.containers

/-- One record of `job.status.conditions` as read by `state`: its
`type`, `status` and `reason` attributes. -/
structure JobCondition where
  type : String
  status : String
  reason : String
deriving DecidableEq, Repr

/-- The raw `job.status` object returned by `read_namespaced_job`.
The counters `active` / `failed` / `succeeded` are integers or `None`
(the Kubernetes API omits a counter that is zero, so the client
deserializes it as `None`); `conditions` is a list or `None`; the
timestamps are datetime objects or `None`, modeled here by their
string rendering when present. -/
structure JobStatus where
  conditions : Option (List JobCondition)
  active : Option Int
  failed : Option Int
  succeeded : Option Int
  start_time : Option String
  completion_time : Option String
deriving DecidableEq, Repr

/-- The inner `Status` dictionary returned by `state`: `StartTime` and
`CompletionTime` are strings because the source applies `str(...)` to
the timestamps. -/
structure NormalizedStatus where
  Message : String
  State : String
  Reason : Option String
  Active : Option Int
  Failed : Option Int
  Succeeded : Option Int
  StartTime : String
  CompletionTime : String
deriving DecidableEq, Repr

/-- The dictionary returned by `state`: a single key `Status`. -/
structure StateResult where
  Status : NormalizedStatus
deriving DecidableEq, Repr

/-- Python `str(x)` on a possibly-`None` value whose present case is
already rendered as a string: `str(None)` is the string `"None"`. -/
def pyStr : Option String → String
  | none => "None"
  | some s => s

/-- Python `x > 0` where `x` is an `Optional[int]`: under Python 3,
comparing `None` with an `int` raises a `TypeError`. -/
def pyGtZero : Option Int → Except String Bool
  | none => .error "TypeError: unsupported comparison between NoneType and int"
  | some n => .ok (0 < n)

/-- The scanning predicate of the condition loop in `state` (source
line 293): `condition.type == 'Failed' and condition.status == 'True'`. -/
def failedTrue (c : JobCondition) : Bool :=
  c.type == "Failed" && c.status == "True"

/-- The condition loop of `state` (source lines 291-297): if
`job.status.conditions` is truthy (non-`None` and non-empty), scan it
in order and stop at the first condition with type `Failed` and status
`True`.  `List.find?` returns exactly that first match; it returns
`none` on the empty list, which coincides with the Python truthiness
check skipping the loop. -/
def firstFailed (st : JobStatus) : Option JobCondition :=
  match st.conditions with
  | none => none
  | some conds => conds.find? failedTrue

/-- The result dictionary built at the end of `state` (source lines
309-316): the derived message/state/reason plus the pass-through of
the raw status fields, with `str(...)` applied to the timestamps. -/
def mkStatus (st : JobStatus) (message state_ : String)
    (reason : Option String) : StateResult :=
  ⟨{ Message := message, State := state_, Reason := reason,
     Active := st.active, Failed := st.failed, Succeeded := st.succeeded,
     StartTime := pyStr st.start_time,
     CompletionTime := pyStr st.completion_time }⟩

/-- The branch of `state` reached when neither the failed branch nor
the complete branch fired: `elif job.status.active > 0` (running),
`else` (inactive); source lines 302-307. -/
def stateActiveBranch (st : JobStatus) : Except String StateResult :=
  match pyGtZero st.active with
  | .error e => .error e
  | .ok true => .ok (mkStatus st "started" "running" none)
  | .ok false => .ok (mkStatus st "inactive" "inactive" none)

/-- The pure part of `OpenShiftManager.state` (source lines 283-316)
applied to the `job.status` fetched by `get_job`: derive the
normalized state dictionary.  The `Except` error case is a Python
`TypeError` raised by comparing a `None` counter with `0` (Python 3).
Branch order is exactly the source's: first failed condition, then
`completion_time and succeeded > 0` (the `and` short-circuits, so
`succeeded` is only compared when `completion_time` is truthy — a
datetime is always truthy, so truthiness is `isSome`), then
`active > 0`, else inactive. -/
def state (st : JobStatus) : Except String StateResult :=
  match firstFailed st with
  | some c => .ok (mkStatus st "started" "failed" (some c.reason))
  | none =>
    if st.completion_time.isSome then
      match pyGtZero st.succeeded with
      | .error e => .error e
      | .ok true => .ok (mkStatus st "finished" "complete" none)
      | .ok false => stateActiveBranch st
    else stateActiveBranch st

/-- `OpenShiftManager.get_job_pod_logs` (source lines 318-332):
`get_pod_log name container` is the API capability
`read_namespaced_pod_log` (a total function here, modelling the case
where every fetch succeeds).  The plugin container's name is
`pod_name.split('-')[0]` and the concatenation is
`pod_name + ":" + "init_container log:" + ... ` verbatim. -/
def get_job_pod_logs (get_pod_log : String → String → String)
    (pod_name : String) : String :=
  let init_container_log := get_pod_log pod_name "init-storage"
  let plugin_container := (pySplit '-' pod_name).headI
  let job_container_log := get_pod_log pod_name plugin_container
  let publish_container_log := get_pod_log pod_name "publish"
  pod_name ++ ":" ++ "init_container log:" ++ init_container_log ++
    "plugin_container log:" ++ job_container_log ++
    "publish_container log:" ++ publish_container_log

/-- A log-fetch capability that answers with one of three fixed logs
according to the container name, checking the two fixed helper names
first (as `get_job_pod_logs` requests them). -/
def three_logs (init primary publish : String) : String → String → String :=
  fun _ container =>
    if container = "init-storage" then init
    else if container = "publish" then publish
    else primary

/-- `OpenShiftManager.remove_job` (source lines 271-275): it forwards
the deletion to the API client's `delete_namespaced_job(name,
self.project, {})` and performs no error handling of its own — no
try/except, no existence check — so its result is the client's result
verbatim. -/
def remove_job (delete_namespaced_job : String → String → Except String α)
    (project name : String) : Except String α :=
  delete_namespaced_job name project

/-- Model of the external Kubernetes client's `delete_namespaced_job`
over a cluster state given as a list of (project, job-name) pairs: it
removes the named job, and raises an `ApiException` with HTTP status
404 when the job does not exist.  This is the documented behavior of
the external `kubernetes` library, not code of this repository. -/
def k8s_delete_namespaced_job (cluster : List (String × String)) :
    String → String → Except String (List (String × String)) :=
  fun name project =>
    if (project, name) ∈ cluster then .ok (cluster.erase (project, name))
    else .error "ApiException 404 Not Found"

/-- Helper: a `some` result of `firstFailed` comes from a present
conditions list whose first match under `failedTrue` is that
condition. -/
theorem firstFailed_eq_some (st : JobStatus) (c : JobCondition)
    (h : firstFailed st = some c) :
    ∃ conds, st.conditions = some conds ∧ conds.find? failedTrue = some c := by
  unfold firstFailed at h
  cases hc : st.conditions with
  | none => rw [hc] at h; cases h
  | some conds =>
    rw [hc] at h
    exact ⟨conds, rfl, h⟩

/-- Helper: every successful result of `state` is `mkStatus` applied
to one of the four message/state/reason triples, and the failed triple
only arises from `firstFailed`. -/
theorem state_ok_shape (st : JobStatus) (out : StateResult)
    (h : state st = Except.ok out) :
    (∃ c, firstFailed st = some c ∧
        out = mkStatus st "started" "failed" (some c.reason)) ∨
    out = mkStatus st "finished" "complete" none ∨
    out = mkStatus st "started" "running" none ∨
    out = mkStatus st "inactive" "inactive" none := by
  unfold state at h
  have hactive : ∀ (h2 : stateActiveBranch st = Except.ok out),
      out = mkStatus st "started" "running" none ∨
      out = mkStatus st "inactive" "inactive" none := by
    intro h2
    unfold stateActiveBranch at h2
    cases hac : pyGtZero st.active with
    | error e => rw [hac] at h2; cases h2
    | ok b =>
      rw [hac] at h2
      cases b with
      | false => exact Or.inr (Except.ok.inj h2).symm
      | true => exact Or.inl (Except.ok.inj h2).symm
  cases hf : firstFailed st with
  | some c =>
    rw [hf] at h
    exact Or.inl ⟨c, rfl, (Except.ok.inj h).symm⟩
  | none =>
    rw [hf] at h
    dsimp only at h
    by_cases hct : st.completion_time.isSome
    · rw [if_pos hct] at h
      cases hsu : pyGtZero st.succeeded with
      | error e => rw [hsu] at h; cases h
      | ok b =>
        rw [hsu] at h
        cases b with
        | false => exact Or.inr (Or.inr (hactive h))
        | true => exact Or.inr (Or.inl (Except.ok.inj h).symm)
    · rw [if_neg hct] at h
      exact Or.inr (Or.inr (hactive h))

/-- C1: for every raw job status, if any condition has type "Failed"
and status "True", `state` returns the `failed` state with message
"started" and reason equal to the first such condition's reason
(`List.find?` is exactly the in-order scan stopping at the first
match).  No hypothesis constrains `completion_time`, `succeeded` or
`active`, so the failure branch pre-empts the completion and activity
checks even when completion time is set and the succeeded count is
positive. -/
theorem c1_first_failed_condition_wins (st : JobStatus)
    (conds : List JobCondition) (c : JobCondition)
    (h1 : st.conditions = some conds)
    (h2 : conds.find? failedTrue = some c) :
    state st = Except.ok
      ⟨{ Message := "started", State := "failed", Reason := some c.reason,
         Active := st.active, Failed := st.failed, Succeeded := st.succeeded,
         StartTime := pyStr st.start_time,
         CompletionTime := pyStr st.completion_time }⟩ := by
  have hf : firstFailed st = some c := by
    unfold firstFailed
    rw [h1]
    exact h2
  unfold state
  rw [hf]
  rfl

/-- Witness for C1 at the spec's end-to-end scenario C: a status with
a `Failed`/`True` condition with reason "OOMKilled", succeeded count 1
and completion time set derives the `failed` state with that reason. -/
theorem c1_first_failed_condition_wins_witness :
    state { conditions := some [⟨"Failed", "True", "OOMKilled"⟩],
            active := some 0, failed := some 0, succeeded := some 1,
            start_time := some "2020-01-01 10:00:00",
            completion_time := some "2020-01-01 11:00:00" } =
      Except.ok
        ⟨{ Message := "started", State := "failed",
           Reason := some "OOMKilled", Active := some 0,
           Failed := some 0, Succeeded := some 1,
           StartTime := "2020-01-01 10:00:00",
           CompletionTime := "2020-01-01 11:00:00" }⟩ :=
  c1_first_failed_condition_wins
    { conditions := some [⟨"Failed", "True", "OOMKilled"⟩],
      active := some 0, failed := some 0, succeeded := some 1,
      start_time := some "2020-01-01 10:00:00",
      completion_time := some "2020-01-01 11:00:00" }
    [⟨"Failed", "True", "OOMKilled"⟩] ⟨"Failed", "True", "OOMKilled"⟩
    rfl (by decide)

/-- C5 (code bug): `state` is not total.  On a freshly created job the
Kubernetes client reports every counter as `None`; with no conditions,
no completion time, and `active = None`, the source reaches
`job.status.active > 0` (line 302) and Python 3 raises a `TypeError`
instead of returning one of the four states. -/
theorem c5_state_not_total_on_null_active :
    state { conditions := none, active := none, failed := none,
            succeeded := none, start_time := none,
            completion_time := none } =
      Except.error "TypeError: unsupported comparison between NoneType and int" :=
  rfl

/-- C8 (counterexample): the timestamps are not passed through
unchanged — the source applies `str(...)`, so a `None` start time
becomes the string "None".  Two raw statuses that differ only in
`start_time` (`None` versus the string "None") produce identical
outputs, and the output of the `None` case carries the string "None"
rather than a null. -/
theorem c8_timestamps_not_unchanged_counterexample :
    (state { conditions := some [⟨"Failed", "True", "BackoffLimitExceeded"⟩],
             active := some 0, failed := some 1, succeeded := some 0,
             start_time := none, completion_time := none } =
      Except.ok
        ⟨{ Message := "started", State := "failed",
           Reason := some "BackoffLimitExceeded", Active := some 0,
           Failed := some 1, Succeeded := some 0,
           StartTime := "None", CompletionTime := "None" }⟩) ∧
    state { conditions := some [⟨"Failed", "True", "BackoffLimitExceeded"⟩],
            active := some 0, failed := some 1, succeeded := some 0,
            start_time := none, completion_time := none } =
      state { conditions := some [⟨"Failed", "True", "BackoffLimitExceeded"⟩],
              active := some 0, failed := some 1, succeeded := some 0,
              start_time := some "None", completion_time := none } ∧
    (none : Option String) ≠ some "None" :=
  ⟨rfl, rfl, by decide⟩

/-- C8 (amended): whenever `state` returns, the reason is null unless
the failed-condition branch fired, the three counters are passed
through unchanged, and the timestamps are passed through their
`str(...)` rendering (`pyStr`): present values unchanged, null values
as the string "None". -/
theorem c8_passthrough_and_reason (st : JobStatus) (out : StateResult)
    (h : state st = Except.ok out) :
    out.Status.Active = st.active ∧ out.Status.Failed = st.failed ∧
    out.Status.Succeeded = st.succeeded ∧
    out.Status.StartTime = pyStr st.start_time ∧
    out.Status.CompletionTime = pyStr st.completion_time ∧
    (∀ r, out.Status.Reason = some r →
      ∃ conds c, st.conditions = some conds ∧
        conds.find? failedTrue = some c ∧ r = c.reason) := by
  rcases state_ok_shape st out h with ⟨c, hf, hout⟩ | hout | hout | hout <;>
    subst hout <;> refine ⟨rfl, rfl, rfl, rfl, rfl, ?_⟩ <;> intro r hr
  · obtain ⟨conds, hc, hfind⟩ := firstFailed_eq_some st c hf
    exact ⟨conds, c, hc, hfind, (Option.some.inj hr).symm⟩
  · exact absurd hr (by simp [mkStatus])
  · exact absurd hr (by simp [mkStatus])
  · exact absurd hr (by simp [mkStatus])

/-- Witness for C8 (amended) at a concrete running status. -/
theorem c8_passthrough_and_reason_witness :
    (⟨{ Message := "started", State := "running", Reason := none,
        Active := some 2, Failed := some 0, Succeeded := some 0,
        StartTime := "2020-01-01 10:00:00",
        CompletionTime := "None" }⟩ : StateResult).Status.Active =
      ({ conditions := none, active := some 2, failed := some 0,
         succeeded := some 0, start_time := some "2020-01-01 10:00:00",
         completion_time := none } : JobStatus).active ∧
    (⟨{ Message := "started", State := "running", Reason := none,
        Active := some 2, Failed := some 0, Succeeded := some 0,
        StartTime := "2020-01-01 10:00:00",
        CompletionTime := "None" }⟩ : StateResult).Status.StartTime =
      pyStr (some "2020-01-01 10:00:00") := by
  have h := c8_passthrough_and_reason
    { conditions := none, active := some 2, failed := some 0,
      succeeded := some 0, start_time := some "2020-01-01 10:00:00",
      completion_time := none }
    ⟨{ Message := "started", State := "running", Reason := none,
       Active := some 2, Failed := some 0, Succeeded := some 0,
       StartTime := "2020-01-01 10:00:00", CompletionTime := "None" }⟩
    rfl
  exact ⟨h.1, h.2.2.2.1⟩

/-- C3: for every choice of storage mode (the ambient `STORAGE_TYPE`
value) and gpu limit, `containers[0]` of the built descriptor's pod
template is the primary container: it carries the caller-supplied job
name, image and split command. -/
theorem c3_primary_container_is_first (storage_type : Option String)
    (project image command name : String) (number_of_workers : Int)
    (cpu_limit memory_limit : String) (gpu_limit : Int) :
    ∃ c, (schedule storage_type project image command name number_of_workers
            cpu_limit memory_limit gpu_limit).spec.template.spec.containers.head? =
        some c ∧
      c.name = name ∧ c.image = image ∧ c.command = pySplit ' ' command := by
  unfold schedule
  by_cases hs : storage_type = some "swift" <;>
    by_cases hg : 0 < gpu_limit <;>
      simp [hs, hg]

/-- C2: with storage mode `object-storage` (environment value
"swift"), the descriptor holds exactly 3 container specs in execution
order — the init container (run before the main containers), then the
primary, then the publish container — and exactly 3 volumes; with any
other storage mode (the shared-filesystem branch), exactly 1 container
and exactly 1 volume. -/
theorem c2_topology_container_and_volume_counts (storage_type : Option String)
    (project image command name : String) (number_of_workers : Int)
    (cpu_limit memory_limit : String) (gpu_limit : Int) :
    (∃ primary,
      allContainers (schedule (some "swift") project image command name
          number_of_workers cpu_limit memory_limit gpu_limit) =
        [initStorageContainer name, primary, publishContainer name project] ∧
      primary.name = name ∧ primary.image = image ∧
      (schedule (some "swift") project image command name number_of_workers
          cpu_limit memory_limit gpu_limit).spec.template.spec.volumes.length = 3) ∧
    (storage_type ≠ some "swift" →
      ∃ primary,
        allContainers (schedule storage_type project image command name
            number_of_workers cpu_limit memory_limit gpu_limit) = [primary] ∧
        primary.name = name ∧ primary.image = image ∧
        (schedule storage_type project image command name number_of_workers
            cpu_limit memory_limit gpu_limit).spec.template.spec.volumes.length = 1) := by
  constructor
  · unfold schedule allContainers
    by_cases hg : 0 < gpu_limit <;> simp [hg]
  · intro hs
    unfold schedule allContainers
    by_cases hg : 0 < gpu_limit <;> simp [hs, hg]

/-- Witness for C2's shared-filesystem implication at the environment
value "hostPath" (the source's own comment for the else branch). -/
theorem c2_topology_witness :
    (some "hostPath" : Option String) ≠ some "swift" ∧
    ∃ primary,
      allContainers (schedule (some "hostPath") "myproject" "img" "cmd" "job1"
          1 "100m" "128Mi" 0) = [primary] ∧
      primary.name = "job1" ∧ primary.image = "img" ∧
      (schedule (some "hostPath") "myproject" "img" "cmd" "job1"
          1 "100m" "128Mi" 0).spec.template.spec.volumes.length = 1 :=
  ⟨by decide,
   (c2_topology_container_and_volume_counts (some "hostPath") "myproject" "img"
      "cmd" "job1" 1 "100m" "128Mi" 0).2 (by decide)⟩

/-- C6: when the gpu limit is 0, no `nvidia.com/gpu` limit key appears
in any container of the descriptor (init and main alike) and the pod
template has no node selector; when the gpu limit is positive, the
primary container's limits carry `nvidia.com/gpu` equal to the input
and the pod template carries the node selector
`accelerator: gpu-node`. -/
theorem c6_gpu_limit_and_node_selector (storage_type : Option String)
    (project image command name : String) (number_of_workers : Int)
    (cpu_limit memory_limit : String) (gpu_limit : Int) :
    (gpu_limit = 0 →
      (∀ c ∈ allContainers (schedule storage_type project image command name
          number_of_workers cpu_limit memory_limit gpu_limit),
        c.resources.limits.nvidiaGpu = none) ∧
      (schedule storage_type project image command name number_of_workers
          cpu_limit memory_limit gpu_limit).spec.template.spec.nodeSelector = none) ∧
    (0 < gpu_limit →
      (∃ c, (schedule storage_type project image command name number_of_workers
            cpu_limit memory_limit gpu_limit).spec.template.spec.containers.head? =
          some c ∧
        c.resources.limits.nvidiaGpu = some gpu_limit) ∧
      (schedule storage_type project image command name number_of_workers
          cpu_limit memory_limit gpu_limit).spec.template.spec.nodeSelector =
        some ("accelerator", "gpu-node")) := by
  constructor
  · intro h0
    have hg : ¬ 0 < gpu_limit := by omega
    unfold schedule allContainers
    by_cases hs : storage_type = some "swift" <;>
      simp [hs, hg, initStorageContainer, publishContainer]
  · intro hg
    unfold schedule
    by_cases hs : storage_type = some "swift" <;>
      simp [hs, hg]

/-- Witness for C6 at gpu limit 0 (object-storage mode) and gpu
limit 2 (shared-filesystem mode). -/
theorem c6_gpu_limit_and_node_selector_witness :
    ((∀ c ∈ allContainers (schedule (some "swift") "myproject" "img" "cmd"
        "job1" 1 "100m" "128Mi" 0),
      c.resources.limits.nvidiaGpu = none) ∧
     (schedule (some "swift") "myproject" "img" "cmd" "job1"
        1 "100m" "128Mi" 0).spec.template.spec.nodeSelector = none) ∧
    ((∃ c, (schedule (some "hostPath") "myproject" "img" "cmd" "job1"
          1 "100m" "128Mi" 2).spec.template.spec.containers.head? = some c ∧
        c.resources.limits.nvidiaGpu = some 2) ∧
     (schedule (some "hostPath") "myproject" "img" "cmd" "job1"
        1 "100m" "128Mi" 2).spec.template.spec.nodeSelector =
       some ("accelerator", "gpu-node")) :=
  ⟨(c6_gpu_limit_and_node_selector (some "swift") "myproject" "img" "cmd"
      "job1" 1 "100m" "128Mi" 0).1 rfl,
   (c6_gpu_limit_and_node_selector (some "hostPath") "myproject" "img" "cmd"
      "job1" 1 "100m" "128Mi" 2).2 (by decide)⟩

/-- Helper: no chunk produced by `pySplitList` contains the
separator. -/
theorem pySplitList_sep_not_mem (sep : Char) :
    ∀ (cs : List Char), ∀ l ∈ pySplitList sep cs, sep ∉ l := by
  intro cs
  induction cs with
  | nil =>
    intro l hl
    simp only [pySplitList, List.mem_singleton] at hl
    subst hl
    exact List.not_mem_nil sep
  | cons c cs ih =>
    intro l hl
    simp only [pySplitList] at hl
    by_cases hc : c = sep
    · rw [if_pos hc] at hl
      rcases List.mem_cons.mp hl with rfl | hl
      · exact List.not_mem_nil sep
      · exact ih l hl
    · rw [if_neg hc] at hl
      cases hrec : pySplitList sep cs with
      | nil =>
        rw [hrec] at hl
        dsimp only at hl
        rw [List.mem_singleton] at hl
        subst hl
        intro hm
        rw [List.mem_singleton] at hm
        exact hc hm.symm
      | cons t ts =>
        rw [hrec] at hl
        dsimp only at hl
        rcases List.mem_cons.mp hl with rfl | hl
        · intro hm
          rcases List.mem_cons.mp hm with h | h
          · exact hc h.symm
          · have ht : t ∈ pySplitList sep cs := by
              rw [hrec]; exact List.mem_cons_self t ts
            exact ih t ht h
        · have hlm : l ∈ pySplitList sep cs := by
            rw [hrec]; exact List.mem_cons_of_mem _ hl
          exact ih l hlm

/-- Helper: every token of a Python single-character split is free of
the separator character. -/
theorem pySplit_sep_not_mem (sep : Char) (s : String) :
    ∀ tok ∈ pySplit sep s, sep ∉ tok.toList := by
  intro tok htok
  unfold pySplit at htok
  rcases List.mem_map.mp htok with ⟨l, hl, rfl⟩
  exact pySplitList_sep_not_mem sep s.toList l hl

/-- C10: the primary container's command token list is exactly the
input command split on single space characters (Python
`command.split(" ")`): no token can contain a space, and a run of
consecutive spaces produces empty-string tokens, as the concrete
command "run  now" shows. -/
theorem c10_command_split_tokens (storage_type : Option String)
    (project image command name : String) (number_of_workers : Int)
    (cpu_limit memory_limit : String) (gpu_limit : Int) :
    (∃ c, (schedule storage_type project image command name number_of_workers
            cpu_limit memory_limit gpu_limit).spec.template.spec.containers.head? =
        some c ∧
      c.command = pySplit ' ' command ∧
      ∀ tok ∈ c.command, ' ' ∉ tok.toList) ∧
    (∃ c, (schedule (some "hostPath") "myproject" "img" "run  now" "job1" 1
          "100m" "128Mi" 0).spec.template.spec.containers.head? = some c ∧
      c.command = ["run", "", "now"]) := by
  constructor
  · unfold schedule
    by_cases hs : storage_type = some "swift" <;>
      by_cases hg : 0 < gpu_limit <;>
        simp [hs, hg] <;>
          exact pySplit_sep_not_mem ' ' command
  · exact ⟨_, rfl, by decide⟩

/-- C7 (counterexample): the source reads `STORAGE_TYPE` inside
`schedule` itself (line 109), not once at construction, so two
schedule calls on the same manager with identical JobParameters see
the environment value current at each call: with "swift" at the first
call and "hostPath" at the second, the produced descriptors have
different topologies (3 container specs versus 1), refuting the
claimed call-to-call stability. -/
theorem c7_storage_mode_per_call_counterexample :
    (allContainers (schedule (some "swift") "myproject" "img" "cmd" "job1"
        1 "100m" "128Mi" 0)).length = 3 ∧
    (allContainers (schedule (some "hostPath") "myproject" "img" "cmd" "job1"
        1 "100m" "128Mi" 0)).length = 1 ∧
    schedule (some "swift") "myproject" "img" "cmd" "job1" 1 "100m" "128Mi" 0 ≠
      schedule (some "hostPath") "myproject" "img" "cmd" "job1" 1 "100m" "128Mi" 0 :=
  ⟨by decide, by decide, by decide⟩

/-- C7 (amended): the descriptor topology produced by `schedule` is a
function of the `STORAGE_TYPE` environment value read at the time of
that call: container, init-container and volume counts all follow the
per-call value. -/
theorem c7_topology_follows_env_at_call (storage_type : Option String)
    (project image command name : String) (number_of_workers : Int)
    (cpu_limit memory_limit : String) (gpu_limit : Int) :
    (schedule storage_type project image command name number_of_workers
        cpu_limit memory_limit gpu_limit).spec.template.spec.containers.length =
      (if storage_type = some "swift" then 2 else 1) ∧
    (schedule storage_type project image command name number_of_workers
        cpu_limit memory_limit gpu_limit).spec.template.spec.initContainers.length =
      (if storage_type = some "swift" then 1 else 0) ∧
    (schedule storage_type project image command name number_of_workers
        cpu_limit memory_limit gpu_limit).spec.template.spec.volumes.length =
      (if storage_type = some "swift" then 3 else 1) := by
  by_cases hs : storage_type = some "swift" <;>
    by_cases hg : 0 < gpu_limit <;>
      simp [schedule, hs, hg]

/-- C4 (counterexample): with logs "A", "B", "C" fetched for the three
containers, the aggregation of pod "job1-abcde" is the concatenation
with no space after the pod name's colon — the source builds
`pod_name + ":" + "init_container log:" + ...` — so the claimed exact
string with a space after the colon is wrong. -/
theorem c4_aggregate_no_space_counterexample :
    get_job_pod_logs (three_logs "A" "B" "C") "job1-abcde" =
      "job1-abcde:init_container log:Aplugin_container log:Bpublish_container log:C" ∧
    get_job_pod_logs (three_logs "A" "B" "C") "job1-abcde" ≠
      "job1-abcde: init_container log:Aplugin_container log:Bpublish_container log:C" :=
  ⟨by decide, by decide⟩

/-- C4 (amended): for any pod name whose derived plugin-container name
(the pod name's segment before the first "-") is not one of the two
fixed helper names, and successfully fetched logs for the three
containers, the aggregation returns exactly
`{podName}:init_container log:{init}plugin_container log:{primary}publish_container log:{publish}`
(no space after the pod name's colon). -/
theorem c4_aggregate_format (pod_name init_log primary_log publish_log : String)
    (h1 : (pySplit '-' pod_name).headI ≠ "init-storage")
    (h2 : (pySplit '-' pod_name).headI ≠ "publish") :
    get_job_pod_logs (three_logs init_log primary_log publish_log) pod_name =
      pod_name ++ ":" ++ "init_container log:" ++ init_log ++
        "plugin_container log:" ++ primary_log ++
        "publish_container log:" ++ publish_log := by
  unfold get_job_pod_logs three_logs
  simp [h1, h2]

/-- Witness for C4 (amended) at the scenario-D shape with logs "A",
"B", "C". -/
theorem c4_aggregate_format_witness :
    (pySplit '-' "job2-xyz").headI ≠ "init-storage" ∧
    (pySplit '-' "job2-xyz").headI ≠ "publish" ∧
    get_job_pod_logs (three_logs "A" "B" "C") "job2-xyz" =
      "job2-xyz" ++ ":" ++ "init_container log:" ++ "A" ++
        "plugin_container log:" ++ "B" ++ "publish_container log:" ++ "C" :=
  ⟨by decide, by decide,
   c4_aggregate_format "job2-xyz" "A" "B" "C" (by decide) (by decide)⟩

/-- C9 (counterexample): `remove_job` performs no error handling, so
with the cluster holding no jobs the client's 404 `ApiException`
propagates out of this layer, while the same call on a cluster that
holds the job succeeds — the observable outcome differs with
existence, refuting idempotence at this layer. -/
theorem c9_remove_absent_job_errors_counterexample :
    remove_job (k8s_delete_namespaced_job []) "myproject" "job1" =
      Except.error "ApiException 404 Not Found" ∧
    remove_job (k8s_delete_namespaced_job [("myproject", "job1")]) "myproject"
        "job1" = Except.ok [] :=
  ⟨rfl, rfl⟩

/-- C9 (amended): `remove_job` forwards the deletion to the API client
verbatim (`delete_namespaced_job(name, self.project, {})` with no
try/except): its outcome is exactly the client's outcome, succeeding
when the job exists and propagating the client's 404 error when it
does not. -/
theorem c9_remove_job_is_client_passthrough (cluster : List (String × String))
    (project name : String) :
    remove_job (k8s_delete_namespaced_job cluster) project name =
      k8s_delete_namespaced_job cluster name project ∧
    ((project, name) ∈ cluster →
      remove_job (k8s_delete_namespaced_job cluster) project name =
        Except.ok (cluster.erase (project, name))) ∧
    ((project, name) ∉ cluster →
      remove_job (k8s_delete_namespaced_job cluster) project name =
        Except.error "ApiException 404 Not Found") := by
  refine ⟨rfl, fun h => ?_, fun h => ?_⟩ <;>
    simp [remove_job, k8s_delete_namespaced_job, h]

/-- Witness for C9 (amended) on a one-job cluster: deleting the
present job succeeds, deleting an absent one errors. -/
theorem c9_remove_job_is_client_passthrough_witness :
    ("myproject", "job1") ∈ [("myproject", "job1")] ∧
    remove_job (k8s_delete_namespaced_job [("myproject", "job1")]) "myproject"
        "job1" = Except.ok ([("myproject", "job1")].erase ("myproject", "job1")) ∧
    ("myproject", "job2") ∉ [("myproject", "job1")] ∧
    remove_job (k8s_delete_namespaced_job [("myproject", "job1")]) "myproject"
        "job2" = Except.error "ApiException 404 Not Found" :=
  ⟨by decide,
   (c9_remove_job_is_client_passthrough [("myproject", "job1")] "myproject"
      "job1").2.1 (by decide),
   by decide,
   (c9_remove_job_is_client_passthrough [("myproject", "job1")] "myproject"
      "job2").2.2 (by decide)⟩
